import Mathlib

/-!
# Verification of the Lakebase FastAPI credential / connection-pool layer

Shallow embedding of the credential-lifecycle and database-session code of
the repository (files `src/core/database.py`, `src/core/auth.py`,
`src/core/dependencies.py`, `src/app.py`, `src/main.py`).

Conventions of the embedding:
* wall-clock time (`time.time()`) is a `Nat` of seconds, passed explicitly;
* the Python dict caches are association lists with unique keys, mutated
  by explicit lookup / erase / insert operations;
* every interaction with the external identity provider (the Databricks
  SDK calls inside a `try` block) is abstracted as an `Except`-valued
  argument `issue`, and the number of issuance calls actually attempted is
  returned so that call counts can be reasoned about;
* Python exceptions are `Except.error`; a `try/except` or `finally` block
  is embedded as total control flow on `Except` values;
* the async functions of the request path contain no `await` between their
  cache check and their cache store (the Databricks SDK is synchronous),
  so under asyncio's cooperative scheduling each runs atomically: a set of
  concurrent callers executes as some sequence of whole calls, which is how
  concurrency is modelled below (`runCallers`).
-/

deriving instance DecidableEq for Except

namespace Lakebase

/-- Generic association-list lookup (Python `dict[k]` / `k in dict`). -/
def lookup {α : Type} : List (String × α) → String → Option α
  | [], _ => none
  | (k, v) :: rest, key => if k = key then some v else lookup rest key

/-- Generic association-list deletion (Python `del dict[k]`). -/
def eraseKey {α : Type} : List (String × α) → String → List (String × α)
  | [], _ => []
  | (k, v) :: rest, key =>
      if k = key then eraseKey rest key else (k, v) :: eraseKey rest key

/-- Generic association-list store (Python `dict[k] = v`). -/
def insertKey {α : Type} (c : List (String × α)) (k : String) (v : α) :
    List (String × α) :=
  (k, v) :: eraseKey c k

/-- Python truthiness test for an optional header string: `not h` is true
when the header is absent or the empty string. -/
def header_missing : Option String → Bool
  | none => true
  | some s => s == ""

/-- Python `h if h else default` on an optional header (`h or default`). -/
def truthy_or (h : Option String) (default : String) : String :=
  match h with
  | none => default
  | some s => if s == "" then default else s

/-! ## `src/core/database.py` — per-user credential cache -/

/-- One entry of `user_credential_cache`
(`{"token": str, "username": str, "expires_at": float}`). -/
structure CachedCred where
  token : String
  username : String
  expires_at : Nat
deriving Repr, DecidableEq

/-- The cache `user_credential_cache : dict[str, dict]`, keyed by email. -/
abbrev CredCache := List (String × CachedCred)

/-- `USER_TOKEN_CACHE_DURATION = 45 * 60` (database.py line 34). -/
def USER_TOKEN_CACHE_DURATION : Nat := 45 * 60

/-- The provider's hard expiry of a database token, 60 minutes after
issuance (auth.py line 16: "tokens expire at 60 minutes").  A cache entry
stores `expires_at = issuance_time + USER_TOKEN_CACHE_DURATION`, so its
hard expiry is `expires_at` plus the remaining 15 minutes. -/
def hard_expiry_of (c : CachedCred) : Nat :=
  c.expires_at + (60 * 60 - USER_TOKEN_CACHE_DURATION)

/-- `get_user_credentials_from_cache` (database.py lines 180-189): returns
the cached entry while `time.time() < expires_at`; an expired entry is
deleted from the cache.  Returns the result and the updated cache. -/
def get_user_credentials_from_cache (now : Nat) (user_email : String)
    (cache : CredCache) : Option CachedCred × CredCache :=
  match lookup cache user_email with
  | some cached =>
      if now < cached.expires_at then (some cached, cache)
      else (none, eraseKey cache user_email)
  | none => (none, cache)

/-- What one issuance call against the identity provider yields on success:
`generate_database_credential(...).token` and
`current_user.me().user_name` (database.py lines 229-235). -/
structure IssueResult where
  token : String
  username : String
deriving Repr, DecidableEq

/-- Result of one `generate_user_db_credentials` call: the returned (or
raised) value, the cache afterwards, and how many issuance calls against
the identity provider were attempted. -/
structure GenResult where
  result : Except String CachedCred
  cache : CredCache
  issuerCalls : Nat
deriving Repr, DecidableEq

/-- `generate_user_db_credentials` (database.py lines 192-250).
`issue` abstracts the whole `try` block's provider interaction with the
caller's access token (client construction, credential generation, user
lookup); its failure is the Python exception re-raised as
`RuntimeError("Failed to generate user database credentials: ...")`.
There is no `await` in the Python body, so the function runs atomically
under the event loop. -/
def generate_user_db_credentials (issue : String → Except String IssueResult)
    (user_token user_email : String) (now : Nat) (cache : CredCache) :
    GenResult :=
  match get_user_credentials_from_cache now user_email cache with
  | (some cached, cache1) => ⟨Except.ok cached, cache1, 0⟩
  | (none, cache1) =>
      match issue user_token with
      | Except.ok r =>
          let credentials : CachedCred :=
            ⟨r.token, r.username, now + USER_TOKEN_CACHE_DURATION⟩
          ⟨Except.ok credentials, insertKey cache1 user_email credentials, 1⟩
      | Except.error e =>
          ⟨Except.error ("Failed to generate user database credentials: " ++ e),
            cache1, 1⟩

/-- A sequence of callers `(user_token, time)` for one identity, executed
one after the other (each call is atomic under asyncio, see module
comment); results, final cache and total issuance calls. -/
def runCallers (issue : String → Except String IssueResult)
    (user_email : String) :
    List (String × Nat) → CredCache →
    List (Except String CachedCred) × CredCache × Nat
  | [], cache => ([], cache, 0)
  | (tok, t) :: rest, cache =>
      let g := generate_user_db_credentials issue tok user_email t cache
      let out := runCallers issue user_email rest g.cache
      (g.result :: out.1, out.2.1, g.issuerCalls + out.2.2)

/-! ## `src/core/auth.py` — user credentials and request headers -/

/-- The forwarded trust headers of a request, each possibly absent
(`request.headers.get(...)` yields `None`) or present (possibly empty,
which Python's `not h` also treats as missing). -/
structure Request where
  x_forwarded_access_token : Option String
  x_forwarded_email : Option String
  x_forwarded_user : Option String
deriving Repr, DecidableEq

/-- `TOKEN_TTL_SECONDS = 55 * 60` (auth.py line 18). -/
def TOKEN_TTL_SECONDS : Nat := 55 * 60

/-- `UserCredentials` (auth.py lines 21-33); the opaque
`workspace_client` object is not represented. -/
structure UserCredentials where
  email : String
  access_token : String
  db_oauth_token : String
  token_created_at : Nat
deriving Repr, DecidableEq

/-- `UserCredentials.is_token_expired` (auth.py lines 31-33):
`(time.time() - self.token_created_at) > TOKEN_TTL_SECONDS`. -/
def UserCredentials.is_token_expired (c : UserCredentials) (now : Nat) : Bool :=
  TOKEN_TTL_SECONDS < now - c.token_created_at

/-- Hard expiry of a user's database OAuth token: 60 minutes after
issuance (auth.py line 16). -/
def UserCredentials.hard_expiry (c : UserCredentials) : Nat :=
  c.token_created_at + 60 * 60

/-- Errors surfaced by the auth.py functions:
the 401 `HTTPException` for missing headers and the 500 `HTTPException`
wrapping a failed credential creation. -/
inductive AuthErr where
  | authenticationRequired
  | credentialUnavailable (msg : String)
deriving Repr, DecidableEq

/-- `get_user_credentials_from_request` (auth.py lines 36-59): raises the
401 error when `not email or not access_token`. -/
def get_user_credentials_from_request (r : Request) :
    Except AuthErr (String × String) :=
  if header_missing r.x_forwarded_email || header_missing r.x_forwarded_access_token
  then Except.error AuthErr.authenticationRequired
  else Except.ok (r.x_forwarded_email.getD "", r.x_forwarded_access_token.getD "")

/-- The auth.py credential cache `_user_credentials_cache`, keyed by email. -/
abbrev AuthCache := List (String × UserCredentials)

/-- Result of one `get_or_create_user_credentials` call. -/
structure AuthGenResult where
  result : Except AuthErr UserCredentials
  cache : AuthCache
  issuerCalls : Nat
deriving Repr, DecidableEq

/-- `get_or_create_user_credentials` (auth.py lines 62-141).  `issue`
abstracts the `try` block's provider interaction with the caller's access
token (host lookup, client construction, `generate_database_credential`),
returning the fresh `db_oauth_token`; any exception inside the block is
caught and re-raised as the 500 `HTTPException`.  An expired cache entry
is left in place (only superseded on a successful issuance). -/
def get_or_create_user_credentials (issue : String → Except String String)
    (r : Request) (now : Nat) (cache : AuthCache) : AuthGenResult :=
  match get_user_credentials_from_request r with
  | Except.error e => ⟨Except.error e, cache, 0⟩
  | Except.ok (email, access_token) =>
      let fresh : AuthGenResult :=
        match issue access_token with
        | Except.ok tok =>
            let creds : UserCredentials := ⟨email, access_token, tok, now⟩
            ⟨Except.ok creds, insertKey cache email creds, 1⟩
        | Except.error e =>
            ⟨Except.error (AuthErr.credentialUnavailable
              ("Failed to authenticate user: " ++ e)), cache, 1⟩
      match lookup cache email with
      | some cached =>
          if cached.is_token_expired now then fresh
          else ⟨Except.ok cached, cache, 0⟩
      | none => fresh

/-! ## Scoped sessions (`get_user_async_db`, `get_async_db`) -/

/-- Which scoped resources of a request are still open. -/
structure ScopedState where
  sessionOpen : Bool
  engineOpen : Bool
deriving Repr, DecidableEq

/-- Semantics of a Python `with` block: acquire, run the body, release on
both the normal and the exceptional path (the body's exception is the
`Except.error` value, which the block propagates after releasing). -/
def withBlock {α ε σ : Type} (acquire : σ → σ) (release : σ → σ)
    (body : σ → Except ε α × σ) (s : σ) : Except ε α × σ :=
  let p := body (acquire s)
  (p.1, release p.2)

/-- Semantics of a Python `try/finally` block: the `finally` action runs on
both the normal and the exceptional path. -/
def tryFinally {α ε σ : Type} (body : σ → Except ε α × σ) (fin : σ → σ)
    (s : σ) : Except ε α × σ :=
  let p := body s
  (p.1, fin p.2)

/-- The resource bracket of `get_user_async_db` (database.py lines
296-325): a per-request engine is created, then
`try: async with UserAsyncSessionLocal() as session: yield session`
`finally: await user_engine.dispose()`.  `work` is the outcome of the
caller's unit of work run at the `yield`. -/
def get_user_async_db_scoped {α : Type} (work : Except String α) :
    Except String α × ScopedState :=
  tryFinally
    (withBlock (fun s => { s with sessionOpen := true })
               (fun s => { s with sessionOpen := false })
               (fun s => (work, s)))
    (fun s => { s with engineOpen := false })
    { sessionOpen := false, engineOpen := true }

/-- The resource bracket of `get_async_db` (database.py lines 172-177):
`async with AsyncSessionLocal() as session: yield session`; the shared
engine is not disposed per request. -/
def get_async_db_scoped {α : Type} (work : Except String α) :
    Except String α × ScopedState :=
  withBlock (fun s => { s with sessionOpen := true })
            (fun s => { s with sessionOpen := false })
            (fun s => (work, s))
            { sessionOpen := false, engineOpen := true }

/-- Outcome of one `get_user_async_db` request. -/
inductive ReqOutcome (α : Type) where
  | authError
  | credError (msg : String)
  | completed (result : Except String α) (finalState : ScopedState)
deriving Repr, DecidableEq

/-- One full run of `get_user_async_db` (database.py lines 253-325). -/
structure UserDbRun (α : Type) where
  outcome : ReqOutcome α
  cache : CredCache
  issuerCalls : Nat
deriving Repr, DecidableEq

/-- `get_user_async_db` (database.py lines 253-325): header extraction and
validation (a missing access token raises before any provider call; a
missing email falls back to `user_name or "unknown_user"`), credential
generation, then the scoped engine/session bracket around the caller's
work. -/
def get_user_async_db {α : Type} (issue : String → Except String IssueResult)
    (r : Request) (now : Nat) (cache : CredCache) (work : Except String α) :
    UserDbRun α :=
  if header_missing r.x_forwarded_access_token then
    ⟨ReqOutcome.authError, cache, 0⟩
  else
    let user_token := r.x_forwarded_access_token.getD ""
    let user_email :=
      truthy_or r.x_forwarded_email (truthy_or r.x_forwarded_user "unknown_user")
    let g := generate_user_db_credentials issue user_token user_email now cache
    match g.result with
    | Except.error e => ⟨ReqOutcome.credError e, g.cache, g.issuerCalls⟩
    | Except.ok _ =>
        let p := get_user_async_db_scoped work
        ⟨ReqOutcome.completed p.1 p.2, g.cache, g.issuerCalls⟩

/-! ## Background token refresh (`refresh_token_background`) -/

/-- The module-level shared-token state of database.py
(`postgres_password`, `last_password_refresh`). -/
structure SharedTokenState where
  postgres_password : Option String
  last_password_refresh : Nat
deriving Repr, DecidableEq

/-- One iteration of the `while True` body of `refresh_token_background`
(database.py lines 37-57): sleep, then issue a fresh token and publish it;
any exception is caught and logged and the loop continues.  Returns the
state afterwards and whether the loop continues to the next iteration. -/
def refresh_iteration (issue : Except String String) (now : Nat)
    (s : SharedTokenState) : SharedTokenState × Bool :=
  match issue with
  | Except.ok tok => (⟨some tok, now⟩, true)
  | Except.error _ => (s, true)

/-- The refresh loop run over a finite trace of issuance outcomes. -/
def refresh_loop (events : List (Except String String × Nat))
    (s : SharedTokenState) : SharedTokenState :=
  events.foldl (fun st e => (refresh_iteration e.1 e.2 st).1) s

/-! ## Application lifespan (`src/app.py`, `src/main.py`) -/

/-- Which long-lived resources of the process exist. -/
structure AppTasks where
  sharedEngineOpen : Bool
  refreshTaskRunning : Bool
  healthTaskRunning : Bool
deriving Repr, DecidableEq

/-- What the startup half of `lifespan` (app.py lines 28-74) started.
`initOk` abstracts whether the shared-mode `try` block (engine
initialization, schema creation, refresh start) succeeded; on its failure
the exception is caught and the app starts without database tasks.  In
user-based-auth mode the health-check task is created unconditionally
(app.py lines 43-50). -/
structure StartupTasks where
  healthTaskStarted : Bool
  engineInitialized : Bool
  refreshTaskStarted : Bool
deriving Repr, DecidableEq

/-- The startup half of `lifespan` (app.py lines 28-74). -/
def lifespan_startup (userBasedAuth databaseExists initOk : Bool) :
    StartupTasks :=
  if databaseExists then
    if userBasedAuth then ⟨true, false, false⟩
    else if initOk then ⟨true, true, true⟩
    else ⟨false, false, false⟩
  else ⟨false, false, false⟩

/-- The shutdown half of `lifespan` (app.py lines 76-88; main.py lines
39-46 behave as the `userBasedAuth = false` case): cancel the health-check
task, and in app-level mode stop the token-refresh task.  Nothing here
disposes the shared engine. -/
def lifespan_shutdown (userBasedAuth : Bool) (s : AppTasks) : AppTasks :=
  let s1 := { s with healthTaskRunning := false }
  if userBasedAuth then s1
  else { s1 with refreshTaskRunning := false }

/-- `database_health` (database.py lines 377-391): `False` when the engine
was never initialized; otherwise the probe query's outcome, with any
exception caught and reported as `False`. -/
def database_health (engineExists : Bool) (query : Except String Unit) :
    Bool :=
  if engineExists then
    match query with
    | Except.ok _ => true
    | Except.error _ => false
  else false

/-- One iteration of the `check_database_health` loop (app.py lines
149-159): the probe outcome (or an exception from it) is caught; returns
the health value reported (none when an exception was logged instead) and
whether the loop continues — it always does. -/
def check_database_health_iteration (probe : Except String Bool) :
    Option Bool × Bool :=
  match probe with
  | Except.ok b => (some b, true)
  | Except.error _ => (none, true)

/-! ## Mode selection (`user_based_auth_enabled`, `is_user_based_auth`) -/

/-- Python's `str.lower()` on ASCII configuration values. -/
def lower_string (s : String) : String :=
  String.mk (s.data.map Char.toLower)

/-- `os.getenv("USER_BASED_AUTHENTICATION", "false").lower() == "true"`. -/
def parse_auth_flag (env : Option String) : Bool :=
  lower_string (env.getD "false") == "true"

/-- `user_based_auth_enabled` (database.py line 30): the flag computed
once, from the environment as it was at module import. -/
def user_based_auth_enabled (envAtImport : Option String) : Bool :=
  parse_auth_flag envAtImport

/-- `is_user_based_auth` (dependencies.py lines 12-14): recomputed from
the current environment on every call. -/
def is_user_based_auth (envNow : Option String) : Bool :=
  parse_auth_flag envNow

/-- The two operating modes. -/
inductive AuthMode where
  | shared
  | perCaller
deriving Repr, DecidableEq

/-- Dispatch of `get_db` (database.py lines 328-351): branches on the
module-level `user_based_auth_enabled` captured at import; the current
environment (`envNow`) is not consulted. -/
def get_db_dispatch (startupFlag : Bool) (envNow : Option String) :
    AuthMode :=
  if startupFlag then AuthMode.perCaller else AuthMode.shared

/-- Dispatch of `get_db_session` (dependencies.py lines 17-38): branches
on `is_user_based_auth()`, i.e. on the environment at call time. -/
def get_db_session_dispatch (envNow : Option String) : AuthMode :=
  if is_user_based_auth envNow then AuthMode.perCaller else AuthMode.shared

/-! ## Helper lemmas -/

theorem lookup_insertKey_self {α : Type} (c : List (String × α)) (k : String)
    (v : α) : lookup (insertKey c k v) k = some v := by
  simp [insertKey, lookup]

theorem lookup_eraseKey_self {α : Type} (c : List (String × α)) (k : String) :
    lookup (eraseKey c k) k = none := by
  induction c with
  | nil => rfl
  | cons p rest ih =>
      obtain ⟨k', v⟩ := p
      by_cases h : k' = k
      · simp [eraseKey, h, ih]
      · simp [eraseKey, lookup, h, ih]

theorem cache_hit_fresh {now : Nat} {email : String} {cache : CredCache}
    {c : CachedCred} {c1 : CredCache}
    (h : get_user_credentials_from_cache now email cache = (some c, c1)) :
    now < c.expires_at ∧ lookup cache email = some c ∧ c1 = cache := by
  cases hl : lookup cache email with
  | none =>
      simp only [get_user_credentials_from_cache, hl] at h
      exact absurd h (by simp)
  | some cached =>
      simp only [get_user_credentials_from_cache, hl] at h
      by_cases ht : now < cached.expires_at
      · rw [if_pos ht] at h
        simp only [Prod.mk.injEq, Option.some.injEq] at h
        obtain ⟨h1, h2⟩ := h
        subst h1
        exact ⟨ht, rfl, h2.symm⟩
      · rw [if_neg ht] at h; exact absurd h (by simp)

theorem cache_miss_lookup_none {now : Nat} {email : String}
    {cache c1 : CredCache}
    (h : get_user_credentials_from_cache now email cache = (none, c1)) :
    lookup c1 email = none := by
  cases hl : lookup cache email with
  | none =>
      simp only [get_user_credentials_from_cache, hl] at h
      simp only [Prod.mk.injEq] at h
      rw [← h.2, hl]
  | some cached =>
      simp only [get_user_credentials_from_cache, hl] at h
      by_cases ht : now < cached.expires_at
      · rw [if_pos ht] at h; exact absurd h (by simp)
      · rw [if_neg ht] at h
        simp only [Prod.mk.injEq] at h
        rw [← h.2]
        exact lookup_eraseKey_self cache email

theorem generate_hit (issue : String → Except String IssueResult)
    (tok : String) {email : String} {now : Nat} {cache : CredCache}
    {c : CachedCred}
    (h1 : lookup cache email = some c) (h2 : now < c.expires_at) :
    generate_user_db_credentials issue tok email now cache =
      ⟨Except.ok c, cache, 0⟩ := by
  simp [generate_user_db_credentials, get_user_credentials_from_cache, h1, h2]

theorem generate_miss_ok (issue : String → Except String IssueResult)
    (tok : String) {email : String} {now : Nat} {cache c1 : CredCache}
    {r : IssueResult}
    (hmiss : get_user_credentials_from_cache now email cache = (none, c1))
    (hok : issue tok = Except.ok r) :
    generate_user_db_credentials issue tok email now cache =
      ⟨Except.ok ⟨r.token, r.username, now + USER_TOKEN_CACHE_DURATION⟩,
        insertKey c1 email ⟨r.token, r.username, now + USER_TOKEN_CACHE_DURATION⟩,
        1⟩ := by
  simp [generate_user_db_credentials, hmiss, hok]

theorem generate_miss_err (issue : String → Except String IssueResult)
    (tok : String) {email : String} {now : Nat} {cache c1 : CredCache}
    {e : String}
    (hmiss : get_user_credentials_from_cache now email cache = (none, c1))
    (herr : issue tok = Except.error e) :
    generate_user_db_credentials issue tok email now cache =
      ⟨Except.error ("Failed to generate user database credentials: " ++ e),
        c1, 1⟩ := by
  simp [generate_user_db_credentials, hmiss, herr]

theorem runCallers_all_hit (issue : String → Except String IssueResult)
    (email : String) (creds : CachedCred) (rest : List (String × Nat))
    (cache : CredCache)
    (hlook : lookup cache email = some creds)
    (hwin : ∀ p ∈ rest, p.2 < creds.expires_at) :
    runCallers issue email rest cache =
      (List.replicate rest.length (Except.ok creds), cache, 0) := by
  induction rest with
  | nil => rfl
  | cons p rest ih =>
      obtain ⟨tok, t⟩ := p
      have hg := generate_hit issue tok hlook (hwin (tok, t) (by simp))
      simp only [runCallers, hg]
      rw [ih (fun q hq => hwin q (List.mem_cons_of_mem _ hq))]
      simp [List.replicate_succ]

/-! ## Claim theorems -/

/-- C1: for every identity, when N callers request credentials for the same
uncached (or soft-expired) identity and, as in the source, each call runs
atomically under the event loop (no `await` between cache check and store),
any execution order performs exactly one underlying issuance call to the
identity provider, and all N callers receive the same credential. -/
theorem single_flight_one_issuance
    (issue : String → Except String IssueResult) (email tok : String)
    (now : Nat) (cache c1 : CredCache) (rest : List (String × Nat))
    (r : IssueResult)
    (hmiss : get_user_credentials_from_cache now email cache = (none, c1))
    (hok : issue tok = Except.ok r)
    (hwin : ∀ p ∈ rest, p.2 < now + USER_TOKEN_CACHE_DURATION) :
    (runCallers issue email ((tok, now) :: rest) cache).2.2 = 1 ∧
    (runCallers issue email ((tok, now) :: rest) cache).1 =
      List.replicate (rest.length + 1)
        (Except.ok ⟨r.token, r.username, now + USER_TOKEN_CACHE_DURATION⟩) := by
  have hg := generate_miss_ok issue tok hmiss hok
  have hlook := lookup_insertKey_self c1 email
    (⟨r.token, r.username, now + USER_TOKEN_CACHE_DURATION⟩ : CachedCred)
  simp only [runCallers, hg]
  rw [runCallers_all_hit issue email _ rest _ hlook hwin]
  exact ⟨rfl, by simp [List.replicate_succ]⟩

/-- Witness for C1: three concurrent callers for the uncached identity
"alice" trigger one issuance call and all receive the same credential. -/
theorem single_flight_one_issuance_witness :
    get_user_credentials_from_cache 0 "alice" [] = (none, []) ∧
    (fun _ : String =>
        (Except.ok ⟨"tk", "svc"⟩ : Except String IssueResult)) "t1" =
      (Except.ok ⟨"tk", "svc"⟩ : Except String IssueResult) ∧
    (runCallers (fun _ => Except.ok ⟨"tk", "svc"⟩) "alice"
        [("t1", 0), ("t2", 60), ("t3", 60)] []).2.2 = 1 ∧
    (runCallers (fun _ => Except.ok ⟨"tk", "svc"⟩) "alice"
        [("t1", 0), ("t2", 60), ("t3", 60)] []).1 =
      List.replicate (2 + 1)
        (Except.ok ⟨"tk", "svc", 0 + USER_TOKEN_CACHE_DURATION⟩) := by
  have h := single_flight_one_issuance (fun _ => Except.ok ⟨"tk", "svc"⟩)
    "alice" "t1" 0 [] [] [("t2", 60), ("t3", 60)] ⟨"tk", "svc"⟩
    rfl rfl (by decide)
  exact ⟨rfl, rfl, h.1, h.2⟩

/-- C2: neither credential lookup operation ever returns a credential whose
hard expiry (60 minutes after issuance) has passed: a cached entry is
returned only while the current time is strictly before its stored expiry
(issuance + 45 minutes in database.py, issuance + 55 minutes in auth.py,
both below the 60-minute hard expiry), and otherwise a freshly issued
credential is returned. -/
theorem credentials_never_hard_expired :
    (∀ (issue : String → Except String IssueResult) (tok email : String)
        (now : Nat) (cache : CredCache) (c : CachedCred),
        (generate_user_db_credentials issue tok email now cache).result =
          Except.ok c →
        now < hard_expiry_of c) ∧
    (∀ (issue : String → Except String String) (r : Request) (now : Nat)
        (cache : AuthCache) (u : UserCredentials),
        (get_or_create_user_credentials issue r now cache).result =
          Except.ok u →
        now < u.hard_expiry) := by
  constructor
  · intro issue tok email now cache c hres
    rcases hg : get_user_credentials_from_cache now email cache with ⟨o, c1⟩
    cases o with
    | some cached =>
        obtain ⟨ht, -, -⟩ := cache_hit_fresh hg
        simp only [generate_user_db_credentials, hg] at hres
        simp only [Except.ok.injEq] at hres
        subst hres
        simp only [hard_expiry_of, USER_TOKEN_CACHE_DURATION]
        omega
    | none =>
        cases hi : issue tok with
        | ok r =>
            rw [generate_miss_ok issue tok hg hi] at hres
            simp only [Except.ok.injEq] at hres
            subst hres
            simp only [hard_expiry_of, USER_TOKEN_CACHE_DURATION]
            omega
        | error e =>
            rw [generate_miss_err issue tok hg hi] at hres
            exact absurd hres (by simp)
  · intro issue r now cache u hres
    cases hreq : get_user_credentials_from_request r with
    | error e =>
        simp only [get_or_create_user_credentials, hreq] at hres
        exact absurd hres (by simp)
    | ok p =>
        obtain ⟨email, atok⟩ := p
        cases hl : lookup cache email with
        | some cached =>
            cases hc : cached.is_token_expired now with
            | false =>
                simp only [get_or_create_user_credentials, hreq, hl, hc,
                  Bool.false_eq_true, if_false, Except.ok.injEq] at hres
                subst hres
                simp only [UserCredentials.is_token_expired,
                  TOKEN_TTL_SECONDS, decide_eq_false_iff_not, not_lt] at hc
                simp only [UserCredentials.hard_expiry]
                omega
            | true =>
                cases hi : issue atok with
                | ok tok =>
                    simp only [get_or_create_user_credentials, hreq, hl, hc,
                      hi, if_true, Except.ok.injEq] at hres
                    subst hres
                    simp only [UserCredentials.hard_expiry]
                    omega
                | error e =>
                    simp only [get_or_create_user_credentials, hreq, hl, hc,
                      hi, if_true] at hres
                    exact absurd hres (by simp)
        | none =>
            cases hi : issue atok with
            | ok tok =>
                simp only [get_or_create_user_credentials, hreq, hl, hi,
                  Except.ok.injEq] at hres
                subst hres
                simp only [UserCredentials.hard_expiry]
                omega
            | error e =>
                simp only [get_or_create_user_credentials, hreq, hl, hi]
                  at hres
                exact absurd hres (by simp)

/-- Witness for C2: a fresh issuance at time 0 in each code path yields a
credential whose hard expiry has not passed. -/
theorem credentials_never_hard_expired_witness :
    (generate_user_db_credentials (fun _ => Except.ok ⟨"tk", "svc"⟩) "t"
        "alice" 0 []).result =
      Except.ok (⟨"tk", "svc", 0 + USER_TOKEN_CACHE_DURATION⟩ : CachedCred) ∧
    0 < hard_expiry_of ⟨"tk", "svc", 0 + USER_TOKEN_CACHE_DURATION⟩ ∧
    (get_or_create_user_credentials (fun _ => Except.ok "db")
        ⟨some "at", some "alice", none⟩ 0 []).result =
      Except.ok (⟨"alice", "at", "db", 0⟩ : UserCredentials) ∧
    0 < UserCredentials.hard_expiry ⟨"alice", "at", "db", 0⟩ := by
  refine ⟨rfl, ?_, rfl, ?_⟩
  · exact credentials_never_hard_expired.1 (fun _ => Except.ok ⟨"tk", "svc"⟩)
      "t" "alice" 0 [] _ rfl
  · exact credentials_never_hard_expired.2 (fun _ => Except.ok "db")
      ⟨some "at", some "alice", none⟩ 0 [] _ rfl

/-- C10: in per-caller mode the credential cache is keyed solely by the
forwarded email: while a fresh entry exists for an email, the result of
`generate_user_db_credentials` is identical for any presented access token
and any behaviour of the identity provider, no issuance call is made, and
the cached credential is returned. -/
theorem cache_keyed_only_by_email
    (email : String) (now : Nat) (cache : CredCache) (c : CachedCred)
    (hhit : lookup cache email = some c) (hfresh : now < c.expires_at)
    (issue1 issue2 : String → Except String IssueResult)
    (tok1 tok2 : String) :
    generate_user_db_credentials issue1 tok1 email now cache =
      generate_user_db_credentials issue2 tok2 email now cache ∧
    (generate_user_db_credentials issue1 tok1 email now cache).result =
      Except.ok c ∧
    (generate_user_db_credentials issue1 tok1 email now cache).issuerCalls
      = 0 := by
  rw [generate_hit issue1 tok1 hhit hfresh,
    generate_hit issue2 tok2 hhit hfresh]
  exact ⟨rfl, rfl, rfl⟩

/-- Witness for C10: with a fresh cached entry for "alice", two requests
presenting different tokens (and even different provider behaviours) get
the same cached credential with no issuance call. -/
theorem cache_keyed_only_by_email_witness :
    lookup [("alice", (⟨"tok0", "alice", 100⟩ : CachedCred))] "alice" =
      some ⟨"tok0", "alice", 100⟩ ∧
    (50 : Nat) < (100 : Nat) ∧
    generate_user_db_credentials (fun _ => Except.error "down") "a" "alice"
        50 [("alice", ⟨"tok0", "alice", 100⟩)] =
      generate_user_db_credentials (fun _ => Except.ok ⟨"y", "z"⟩) "b"
        "alice" 50 [("alice", ⟨"tok0", "alice", 100⟩)] ∧
    (generate_user_db_credentials (fun _ => Except.error "down") "a" "alice"
        50 [("alice", ⟨"tok0", "alice", 100⟩)]).result =
      Except.ok ⟨"tok0", "alice", 100⟩ ∧
    (generate_user_db_credentials (fun _ => Except.error "down") "a" "alice"
        50 [("alice", ⟨"tok0", "alice", 100⟩)]).issuerCalls = 0 := by
  have h := cache_keyed_only_by_email "alice" 50
    [("alice", ⟨"tok0", "alice", 100⟩)] ⟨"tok0", "alice", 100⟩ rfl
    (by decide) (fun _ => Except.error "down") (fun _ => Except.ok ⟨"y", "z"⟩)
    "a" "b"
  exact ⟨rfl, by decide, h.1, h.2.1, h.2.2⟩

/-- A header that Python treats as missing contributes nothing to
`h or default`. -/
theorem truthy_or_of_missing {h : Option String} {d : String}
    (hm : header_missing h = true) : truthy_or h d = d := by
  cases h with
  | none => rfl
  | some s =>
      simp only [header_missing] at hm
      simp [truthy_or, hm]

/-- C3 counterexample: a per-caller request presenting an access token but
no identity-label header is not rejected with an authentication error:
`get_user_async_db` falls back to the forwarded-user header and the request
completes normally, after one issuance call. -/
theorem missing_email_not_rejected :
    (get_user_async_db (fun _ => Except.ok ⟨"dbtok", "bob"⟩)
        ⟨some "tok", none, some "bob"⟩ 0 [] (Except.ok ())).outcome =
      ReqOutcome.completed (Except.ok ())
        { sessionOpen := false, engineOpen := false } ∧
    (get_user_async_db (fun _ => Except.ok ⟨"dbtok", "bob"⟩)
        ⟨some "tok", none, some "bob"⟩ 0 [] (Except.ok ())).issuerCalls
      = 1 := by
  exact ⟨rfl, rfl⟩

/-- C3 amended: a request missing the access-token header fails with the
authentication error before any identity-provider call, in both
`get_user_async_db` and `get_user_credentials_from_request`; but in
`get_user_async_db` a request missing only the identity-label header is
not rejected — it proceeds exactly as the same request whose email header
carries the fallback label (forwarded-user header if truthy, else
"unknown_user"). -/
theorem auth_header_validation_amended {α : Type}
    (issue : String → Except String IssueResult) (r : Request) (now : Nat)
    (cache : CredCache) (work : Except String α) :
    (header_missing r.x_forwarded_access_token = true →
      get_user_async_db issue r now cache work =
        ⟨ReqOutcome.authError, cache, 0⟩) ∧
    (header_missing r.x_forwarded_email = true ∨
        header_missing r.x_forwarded_access_token = true →
      get_user_credentials_from_request r =
        Except.error AuthErr.authenticationRequired) ∧
    (header_missing r.x_forwarded_access_token = false →
      header_missing r.x_forwarded_email = true →
      get_user_async_db issue r now cache work =
        get_user_async_db issue
          ⟨r.x_forwarded_access_token,
            some (truthy_or r.x_forwarded_user "unknown_user"),
            r.x_forwarded_user⟩ now cache work) := by
  refine ⟨?_, ?_, ?_⟩
  · intro hm
    simp [get_user_async_db, hm]
  · intro hm
    cases hm with
    | inl h => simp [get_user_credentials_from_request, h]
    | inr h => simp [get_user_credentials_from_request, h]
  · intro htok hemail
    simp only [get_user_async_db, htok, Bool.false_eq_true, if_false,
      truthy_or_of_missing hemail]
    have hfb : truthy_or (some (truthy_or r.x_forwarded_user "unknown_user"))
        (truthy_or r.x_forwarded_user "unknown_user") =
        truthy_or r.x_forwarded_user "unknown_user" := by
      simp only [truthy_or]
      split <;> rfl
    rw [hfb]

/-- Witness for C3 amended, at two concrete requests: one missing the
access token (rejected with no issuance call) and one missing only the
email (accepted under the fallback identity). -/
theorem auth_header_validation_amended_witness :
    get_user_async_db (fun _ => Except.ok ⟨"db", "u"⟩)
        ⟨none, some "a@b", some "u"⟩ 0 [] (Except.ok ()) =
      ⟨ReqOutcome.authError, [], 0⟩ ∧
    get_user_credentials_from_request ⟨some "t", none, some "bob"⟩ =
      Except.error AuthErr.authenticationRequired ∧
    get_user_async_db (fun _ => Except.ok ⟨"db", "u"⟩)
        ⟨some "t", none, some "bob"⟩ 0 [] (Except.ok ()) =
      get_user_async_db (fun _ => Except.ok ⟨"db", "u"⟩)
        ⟨some "t", some (truthy_or (some "bob") "unknown_user"), some "bob"⟩
        0 [] (Except.ok ()) := by
  refine ⟨?_, ?_, ?_⟩
  · exact (auth_header_validation_amended (fun _ => Except.ok ⟨"db", "u"⟩)
      ⟨none, some "a@b", some "u"⟩ 0 [] (Except.ok ())).1 rfl
  · exact (auth_header_validation_amended (fun _ => Except.ok ⟨"db", "u"⟩)
      ⟨some "t", none, some "bob"⟩ 0 [] (Except.ok ())).2.1 (Or.inl rfl)
  · exact (auth_header_validation_amended (fun _ => Except.ok ⟨"db", "u"⟩)
      ⟨some "t", none, some "bob"⟩ 0 [] (Except.ok ())).2.2 rfl rfl

/-- C4 counterexample: with a soft-expired cache entry present for "alice"
and a failing issuer, the failed refresh leaves the cache *without* the
pre-existing stale entry: the expiry check of the cache lookup deleted it
before the issuance attempt (the claim requires it not to be removed). -/
theorem stale_entry_removed_on_failed_issuance :
    lookup [("alice", (⟨"oldtok", "alice", 100⟩ : CachedCred))] "alice" =
      some ⟨"oldtok", "alice", 100⟩ ∧
    (generate_user_db_credentials (fun _ => Except.error "boom") "t" "alice"
        200 [("alice", ⟨"oldtok", "alice", 100⟩)]).result =
      Except.error "Failed to generate user database credentials: boom" ∧
    lookup (generate_user_db_credentials (fun _ => Except.error "boom") "t"
        "alice" 200 [("alice", ⟨"oldtok", "alice", 100⟩)]).cache "alice" =
      none := by
  exact ⟨rfl, rfl, rfl⟩

/-- C4 amended: a failed issuance propagates the credential error and
writes no new cache entry, and a successful retry for the same identity
then stores and returns a fresh credential normally; but in
`generate_user_db_credentials` a pre-existing soft-expired entry has
already been deleted by the cache lookup before the issuance attempt (so
after the failure no entry for the identity remains) — only auth.py's
`get_or_create_user_credentials` leaves the cache, including any stale
entry, unchanged on a failed issuance. -/
theorem failed_issuance_amended
    (issue : String → Except String IssueResult) (tok email : String)
    (now : Nat) (cache c1 : CredCache) (e : String)
    (hmiss : get_user_credentials_from_cache now email cache = (none, c1))
    (herr : issue tok = Except.error e) :
    (generate_user_db_credentials issue tok email now cache).result =
      Except.error ("Failed to generate user database credentials: " ++ e) ∧
    (generate_user_db_credentials issue tok email now cache).cache = c1 ∧
    lookup (generate_user_db_credentials issue tok email now cache).cache
      email = none ∧
    (∀ (issue2 : String → Except String IssueResult) (tok2 : String)
        (now2 : Nat) (r : IssueResult), issue2 tok2 = Except.ok r →
        (generate_user_db_credentials issue2 tok2 email now2 c1).result =
          Except.ok ⟨r.token, r.username, now2 + USER_TOKEN_CACHE_DURATION⟩ ∧
        lookup (generate_user_db_credentials issue2 tok2 email now2
            c1).cache email =
          some ⟨r.token, r.username, now2 + USER_TOKEN_CACHE_DURATION⟩) ∧
    (∀ (issueA : String → Except String String) (rq : Request) (nowA : Nat)
        (cacheA : AuthCache) (eA : String),
        (∀ t, issueA t = Except.error eA) →
        (get_or_create_user_credentials issueA rq nowA cacheA).cache =
          cacheA) := by
  have hfail := generate_miss_err issue tok hmiss herr
  have hnone : lookup c1 email = none := cache_miss_lookup_none hmiss
  refine ⟨by rw [hfail], by rw [hfail], by rw [hfail]; exact hnone,
    ?_, ?_⟩
  · intro issue2 tok2 now2 r hok
    have hmiss2 : get_user_credentials_from_cache now2 email c1 =
        (none, c1) := by
      simp [get_user_credentials_from_cache, hnone]
    have h2 := generate_miss_ok issue2 tok2 hmiss2 hok
    rw [h2]
    exact ⟨rfl, lookup_insertKey_self c1 email _⟩
  · intro issueA rq nowA cacheA eA hall
    cases hreq : get_user_credentials_from_request rq with
    | error x => simp [get_or_create_user_credentials, hreq]
    | ok p =>
        obtain ⟨emailA, atokA⟩ := p
        cases hl : lookup cacheA emailA with
        | some cached =>
            cases hc : cached.is_token_expired nowA with
            | false =>
                simp [get_or_create_user_credentials, hreq, hl, hc]
            | true =>
                simp [get_or_create_user_credentials, hreq, hl, hc,
                  hall atokA]
        | none =>
            simp [get_or_create_user_credentials, hreq, hl, hall atokA]

/-- Witness for C4 amended at a concrete input: "alice" soft-expired at
t=200, issuer fails, then a retry at t=300 succeeds and caches; and the
auth.py cache is untouched by an always-failing issuer. -/
theorem failed_issuance_amended_witness :
    get_user_credentials_from_cache 200 "alice"
        [("alice", ⟨"oldtok", "alice", 100⟩)] = (none, []) ∧
    (fun _ : String => (Except.error "boom" : Except String IssueResult))
        "t" = Except.error "boom" ∧
    (generate_user_db_credentials (fun _ => Except.error "boom") "t" "alice"
        200 [("alice", ⟨"oldtok", "alice", 100⟩)]).result =
      Except.error "Failed to generate user database credentials: boom" ∧
    (generate_user_db_credentials (fun _ => Except.ok ⟨"new", "alice"⟩)
        "t2" "alice" 300 []).result =
      Except.ok ⟨"new", "alice", 300 + USER_TOKEN_CACHE_DURATION⟩ := by
  have h := failed_issuance_amended (fun _ => Except.error "boom") "t"
    "alice" 200 [("alice", ⟨"oldtok", "alice", 100⟩)] [] "boom" rfl rfl
  refine ⟨rfl, rfl, h.1, ?_⟩
  exact (h.2.2.2.1 (fun _ => Except.ok ⟨"new", "alice"⟩) "t2" 300
    ⟨"new", "alice"⟩ rfl).1

/-- C5: every iteration of the background refresh loop continues to the
next iteration whatever the issuance outcome; a failed issuance leaves the
published shared token state exactly as it was, and the shared token slot
is only ever atomically replaced as a whole by a newly issued token or
kept unchanged. -/
theorem refresh_replace_or_keep (issue : Except String String) (now : Nat)
    (s : SharedTokenState) (e : String) :
    (refresh_iteration issue now s).2 = true ∧
    (refresh_iteration (Except.error e) now s).1 = s ∧
    (refresh_iteration (Except.error e) now s).2 = true ∧
    ((refresh_iteration issue now s).1 = s ∨
      ∃ tok, issue = Except.ok tok ∧
        (refresh_iteration issue now s).1 = ⟨some tok, now⟩) := by
  cases issue with
  | ok tok => exact ⟨rfl, rfl, rfl, Or.inr ⟨tok, rfl, rfl⟩⟩
  | error x => exact ⟨rfl, rfl, rfl, Or.inl rfl⟩

/-- C6: in both modes the session handed to the caller is a scoped
resource: whatever the outcome of the caller's unit of work (success or
exception), the session is released on scope exit, and in per-caller mode
the per-request engine is disposed as well; the work's outcome is
propagated unchanged. -/
theorem session_released_on_completion {α : Type}
    (work : Except String α) :
    (get_user_async_db_scoped work).1 = work ∧
    (get_user_async_db_scoped work).2 =
      { sessionOpen := false, engineOpen := false } ∧
    (get_async_db_scoped work).1 = work ∧
    (get_async_db_scoped work).2.sessionOpen = false := by
  exact ⟨rfl, rfl, rfl, rfl⟩

/-- C7 counterexample: a shared-mode process whose engine pool is open
runs the lifespan shutdown and its shared engine pool is still open
afterwards — shutdown cancels the background tasks but disposes no pool,
so it does not leave zero open connections. -/
theorem shared_engine_not_disposed_at_shutdown :
    (lifespan_shutdown false ⟨true, true, true⟩).sharedEngineOpen =
      true := by
  rfl

/-- C7 amended: at shutdown the health-check task is cancelled (both
modes) and the token-refresh task is stopped (shared mode); the shared
engine is left untouched by shutdown, and only the per-request engines of
per-caller mode are disposed, each when its own request completes. -/
theorem shutdown_amended {α : Type} (uba : Bool) (s : AppTasks)
    (work : Except String α) :
    (lifespan_shutdown uba s).healthTaskRunning = false ∧
    (lifespan_shutdown false s).refreshTaskRunning = false ∧
    (lifespan_shutdown uba s).sharedEngineOpen = s.sharedEngineOpen ∧
    (get_user_async_db_scoped work).2.engineOpen = false := by
  cases uba with
  | false => exact ⟨rfl, rfl, rfl, rfl⟩
  | true => exact ⟨rfl, rfl, rfl, rfl⟩

/-- C8 counterexample: in per-caller mode, with the database instance
present, the lifespan startup does start the health-probe task — the
claim requires that no probe task be started in that mode. -/
theorem health_probe_started_in_per_caller_mode :
    (lifespan_startup true true true).healthTaskStarted = true := by
  rfl

/-- C8 amended: the health-probe task is started whenever the database
instance exists, in per-caller mode as well as shared mode (in shared mode
only if engine initialization succeeds); when no engine exists the probe
reports unhealthy, a probe exception is caught and reported as unhealthy
rather than propagated, and the probe loop continues after any single
probe outcome. -/
theorem health_probe_amended (uba : Bool) (q : Except String Unit)
    (e : String) (b : Bool) :
    (lifespan_startup uba true true).healthTaskStarted = true ∧
    (lifespan_startup uba false true).healthTaskStarted = false ∧
    (lifespan_startup false true false).healthTaskStarted = false ∧
    database_health false q = false ∧
    database_health true (Except.error e) = false ∧
    (check_database_health_iteration (Except.error e)).1 = none ∧
    (check_database_health_iteration (Except.error e)).2 = true ∧
    (check_database_health_iteration (Except.ok b)).2 = true := by
  cases uba with
  | false => exact ⟨rfl, rfl, rfl, rfl, rfl, rfl, rfl, rfl⟩
  | true => exact ⟨rfl, rfl, rfl, rfl, rfl, rfl, rfl, rfl⟩

/-- C9 counterexample: the dispatch of `get_db_session` is recomputed from
the environment on every call, so a run-time mutation of the
`USER_BASED_AUTHENTICATION` variable changes the mode between two requests
of the same process: with the variable "false" the request is dispatched
shared, with it "true" per-caller — the mode is not a value fixed once at
startup. -/
theorem mode_tracks_runtime_env :
    get_db_session_dispatch (some "false") = AuthMode.shared ∧
    get_db_session_dispatch (some "true") = AuthMode.perCaller ∧
    get_db_session_dispatch (some "false") ≠
      get_db_session_dispatch (some "true") := by
  refine ⟨by decide, by decide, by decide⟩

/-- C9 amended: `get_db` dispatches on the module-level flag captured at
import, so its mode is identical for every pair of requests whatever the
run-time environment; `get_db_session` re-derives the mode from the
current environment on each call, agreeing with `get_db` exactly when the
environment still holds the value captured at import. -/
theorem mode_dispatch_amended (flag : Bool) (env1 env2 : Option String) :
    get_db_dispatch flag env1 = get_db_dispatch flag env2 ∧
    get_db_session_dispatch env1 =
      get_db_dispatch (user_based_auth_enabled env1) env1 ∧
    user_based_auth_enabled env1 = is_user_based_auth env1 := by
  exact ⟨rfl, rfl, rfl⟩

end Lakebase
